import Mathlib

/-!
# Verification of the vaultum/sdk-js operation poller (`src/client.ts`)

This file shallowly embeds the status-fetch and polling logic of
`src/client.ts` (the `VaultumError` class, the private `request` method,
`getOpStatus`, `waitForOperation`, and the standalone `waitForOp`
function) and proves the spec's claims about them.

Modelling conventions:
* JavaScript `undefined`/missing fields become `Option`.
* A thrown value is an `ThrownError`: either a `VaultumError` (message,
  optional status code, optional field-error map) or a bare `Error`
  carrying only a message. Functions that may throw return `Except`.
* The network is a script: a function from poll index to the outcome of
  that round trip. `Date.now() - started` at the i-th bound check is a
  function `elapsed : Nat → Nat` supplied to the model.
* Each run produces a trace recording, besides the result, the number of
  network requests performed, the arguments of every callback invocation
  in order, and the duration of every sleep in order.
* The unbounded `while (true)` loop of `waitForOp` is modelled with
  explicit fuel; a run that would keep looping past the fuel is `none`.
-/

namespace VaultumSdk

/-- The JSON value shape read by the client: the fields of a status
payload (`id`, `state`, `txHash`) together with the fields of the error
bodies (`message`, `error`, `errors`). A field the server did not send is
`none` (JavaScript `undefined`). -/
structure JsonValue where
  id : Option String
  state : Option String
  txHash : Option String
  message : Option String
  error : Option String
  errors : Option (List (String × List String))
deriving DecidableEq

/-- A value thrown by the SDK: either a normalized `VaultumError`
(`class VaultumError extends Error` with `message`, `statusCode?`,
`errors?`) or a bare `new Error(message)`. -/
inductive ThrownError where
  | vaultum (message : String) (statusCode : Option Nat)
      (errors : Option (List (String × List String)))
  | plain (message : String)
deriving DecidableEq

deriving instance DecidableEq for Except

/-- `true` iff the error is the normalized `VaultumError` shape. -/
def ThrownError.isVaultum : ThrownError → Bool
  | .vaultum _ _ _ => true
  | .plain _ => false

/-- Whether an `Except` result is either a success or a normalized
`VaultumError` (i.e. no bare un-normalized error escaped). -/
def errNormalized {α : Type} : Except ThrownError α → Bool
  | .ok _ => true
  | .error e => e.isVaultum

/-- Outcome of one `fetch` round trip as observed by
`VaultumClient.request`: either a response (status plus parsed JSON
body), or a thrown value with a `name` and an optional `message`
(`none` models a thrown non-`Error` value). -/
inductive FetchOutcome where
  | response (status : Nat) (body : JsonValue)
  | thrown (name : String) (message : Option String)
deriving DecidableEq

/-- JavaScript `x || d` for an optional string `x`: `undefined` and the
empty string are falsy. -/
def jsOrString (x : Option String) (d : String) : String :=
  match x with
  | none => d
  | some v => if v = "" then d else v

/-- JavaScript `x || d` for an optional non-negative integer `x`:
`undefined` and `0` are falsy. -/
def jsOrNat (x : Option Nat) (d : Nat) : Nat :=
  match x with
  | none => d
  | some v => if v = 0 then d else v

/-- `response.ok`: status in the 2xx range. -/
def responseOk (status : Nat) : Bool :=
  200 ≤ status && status < 300

/-- `VaultumClient.request` (src/client.ts lines 42-93): on a 2xx
response return the parsed body; on a non-2xx response throw a
`VaultumError` built from the body (422 uses `message || 'Validation
failed'` and preserves `errors`; otherwise `error || 'Request failed
with status N'`); an `AbortError` becomes `VaultumError('Request
timeout')`; any other thrown value is wrapped with its message or
`'Unknown error occurred'`. -/
def request (outcome : FetchOutcome) : Except ThrownError JsonValue :=
  match outcome with
  | .response status body =>
      if responseOk status then
        .ok body
      else if status = 422 then
        .error (.vaultum (jsOrString body.message "Validation failed")
          (some status) body.errors)
      else
        .error (.vaultum
          (jsOrString body.error ("Request failed with status " ++ toString status))
          (some status) none)
  | .thrown name message =>
      if name = "AbortError" then
        .error (.vaultum "Request timeout" none none)
      else
        .error (.vaultum (message.getD "Unknown error occurred") none none)

/-- One character of `[a-f0-9]` under the regex's `i` flag. -/
def hexDigit (c : Char) : Bool :=
  c.isDigit || (('a' ≤ c) && (c ≤ 'f')) || (('A' ≤ c) && (c ≤ 'F'))

/-- The anchored UUID regex
`/^[a-f0-9]\x7b8\x7d-[a-f0-9]\x7b4\x7d-[a-f0-9]\x7b4\x7d-[a-f0-9]\x7b4\x7d-[a-f0-9]\x7b12\x7d$/i`
of `getOpStatus`: five dash-separated groups of hex digits with lengths
8, 4, 4, 4, 12. Since a hex digit is never a dash, splitting on dashes
is equivalent to the grouped regex. -/
def isValidUUID (s : String) : Bool :=
  match s.toList.splitOn '-' with
  | [a, b, c, d, e] =>
      a.length = 8 && b.length = 4 && c.length = 4 && d.length = 4 &&
      e.length = 12 && (a ++ b ++ c ++ d ++ e).all hexDigit
  | _ => false

/-- `VaultumClient.getOpStatus` (src/client.ts lines 112-117): if the id
is falsy or fails the UUID regex, throw
`VaultumError('Invalid operation ID format')` without any network
request; otherwise perform one request. The second component counts the
network requests performed. -/
def getOpStatus (id : String) (outcome : FetchOutcome) :
    Except ThrownError JsonValue × Nat :=
  if id = "" || !isValidUUID id then
    (.error (.vaultum "Invalid operation ID format" none none), 0)
  else
    (request outcome, 1)

/-- `status.state === 'success' || status.state === 'failed'`. -/
def isTerminal (j : JsonValue) : Bool :=
  j.state = some "success" || j.state = some "failed"

/-- Observable trace of one `waitForOperation` run: the result, the
number of network requests performed, the full status payloads passed to
`onStatusChange` in invocation order, and the sleep durations in order. -/
structure OpTrace where
  result : Except ThrownError JsonValue
  fetches : Nat
  callbackArgs : List JsonValue
  sleeps : List Nat
deriving DecidableEq

/-- The `for (let i = 0; i < maxAttempts; i++)` loop of
`waitForOperation` (src/client.ts lines 135-149), with `fuel` the number
of remaining attempts and `i` the current poll index. Each iteration
calls `getOpStatus`; a thrown error propagates; otherwise
`onStatusChange` (when configured) receives the payload, a terminal
state returns it, and a non-terminal state sleeps `interval` ms and
continues. Exhausting the attempts throws
`VaultumError('Operation timeout: max attempts reached')`. -/
def waitForOperationLoop (id : String) (net : Nat → FetchOutcome)
    (interval : Nat) (hasCb : Bool) : Nat → Nat → OpTrace
  | _, 0 =>
      ⟨.error (.vaultum "Operation timeout: max attempts reached" none none),
        0, [], []⟩
  | i, fuel + 1 =>
      match getOpStatus id (net i) with
      | (.error e, n) => ⟨.error e, n, [], []⟩
      | (.ok st, n) =>
          let cbs := if hasCb then [st] else []
          if isTerminal st then
            ⟨.ok st, n, cbs, []⟩
          else
            let rest := waitForOperationLoop id net interval hasCb (i + 1) fuel
            ⟨rest.result, n + rest.fetches, cbs ++ rest.callbackArgs,
              interval :: rest.sleeps⟩

/-- `VaultumClient.waitForOperation` (src/client.ts lines 124-150):
defaults `pollingInterval || 2000` and `maxAttempts || 60` (JavaScript
falsy semantics), then runs the attempt-capped loop from index 0. -/
def waitForOperation (id : String) (net : Nat → FetchOutcome)
    (pollingInterval maxAttempts : Option Nat) (hasCb : Bool) : OpTrace :=
  waitForOperationLoop id net (jsOrNat pollingInterval 2000) hasCb 0
    (jsOrNat maxAttempts 60)

/-- Outcome of one `fetchFn` round trip as observed by `waitForOp`: a
response with a status and the outcome of `r.json()` (which may itself
throw), or a rejection of `fetchFn` itself, which propagates untouched. -/
inductive WfoFetch where
  | response (status : Nat) (json : Except ThrownError JsonValue)
  | thrown (e : ThrownError)
deriving DecidableEq

/-- Observable trace of one `waitForOp` run: the result, the number of
fetches performed, the arguments passed to `onTick` in order (only the
`state` field of each payload), and the sleep durations in order. -/
structure WfoTrace where
  result : Except ThrownError JsonValue
  fetches : Nat
  ticks : List (Option String)
  sleeps : List Nat
deriving DecidableEq

/-- The `while (true)` loop of `waitForOp` (src/client.ts lines
165-178), with explicit fuel (`none` = the real loop would still be
running after `fuel` iterations). Each iteration: fetch (a rejection
propagates as-is); a 404 status throws the bare
`Error('Operation not found')`; `r.json()` failure propagates; then
`onTick` (when configured) receives `j.state`; a terminal state returns
the payload; otherwise, if the elapsed time strictly exceeds `timeout`,
throw the bare `Error('Timeout waiting for operation')`, else sleep
`interval` ms and continue. -/
def waitForOpLoop (net : Nat → WfoFetch) (elapsed : Nat → Nat)
    (interval timeout : Nat) (hasTick : Bool) : Nat → Nat → Option WfoTrace
  | _, 0 => none
  | i, fuel + 1 =>
      match net i with
      | .thrown e => some ⟨.error e, 1, [], []⟩
      | .response status json =>
          if status = 404 then
            some ⟨.error (.plain "Operation not found"), 1, [], []⟩
          else
            match json with
            | .error e => some ⟨.error e, 1, [], []⟩
            | .ok j =>
                let ticks := if hasTick then [j.state] else []
                if isTerminal j then
                  some ⟨.ok j, 1, ticks, []⟩
                else if timeout < elapsed i then
                  some ⟨.error (.plain "Timeout waiting for operation"),
                    1, ticks, []⟩
                else
                  match waitForOpLoop net elapsed interval timeout hasTick
                      (i + 1) fuel with
                  | none => none
                  | some rest =>
                      some ⟨rest.result, 1 + rest.fetches,
                        ticks ++ rest.ticks, interval :: rest.sleeps⟩

/-- `waitForOp` (src/client.ts lines 159-179): defaults
`intervalMs ?? 1500` and `timeoutMs ?? 120000` (nullish coalescing: 0 is
kept), then runs the wall-clock-bounded loop from index 0. -/
def waitForOp (net : Nat → WfoFetch) (elapsed : Nat → Nat)
    (intervalMs timeoutMs : Option Nat) (hasTick : Bool) (fuel : Nat) :
    Option WfoTrace :=
  waitForOpLoop net elapsed (intervalMs.getD 1500) (timeoutMs.getD 120000)
    hasTick 0 fuel

/-- A status payload, as a `JsonValue`, with the given state and no
`txHash`; convenience constructor for concrete scripts. -/
def statusPayload (id state : String) (txHash : Option String) : JsonValue :=
  ⟨some id, some state, txHash, none, none, none⟩

/-- A concrete well-formed operation id used by concrete runs. -/
def sampleId : String := "12345678-9abc-def0-1234-56789abcdef0"

/-- Concrete payload: a queued (non-terminal) status. -/
def queuedBody : JsonValue := statusPayload "op-1" "queued" none

/-- Concrete payload: a successful terminal status carrying a txHash. -/
def successBody : JsonValue := statusPayload "op-1" "success" (some "0xabc")

/-- Concrete payload: a successful terminal status without a txHash. -/
def successNoHash : JsonValue := statusPayload "op-1" "success" none

/-- Concrete 422 body: an errors map and no message field. -/
def validationBody : JsonValue :=
  ⟨none, none, none, none, none, some [("amount", ["required"])]⟩

/-- Concrete script: one queued poll, then success, for `waitForOperation`. -/
def cnetQueuedThenSuccess : Nat → FetchOutcome :=
  fun j => if j = 0 then .response 200 queuedBody else .response 200 successBody

/-- Concrete script: every poll queued, for `waitForOperation`. -/
def cnetAllQueued : Nat → FetchOutcome := fun _ => .response 200 queuedBody

/-- Concrete script: immediate success, for `waitForOperation`. -/
def cnetSuccess : Nat → FetchOutcome := fun _ => .response 200 successBody

/-- Concrete poll-index-to-payload map for the queued-then-success
scripts. -/
def cbody : Nat → JsonValue := fun j => if j = 0 then queuedBody else successBody

/-- Concrete script: one queued poll, then success, for `waitForOp`. -/
def cwfoQueuedThenSuccess : Nat → WfoFetch :=
  fun j =>
    if j = 0 then .response 200 (.ok queuedBody)
    else .response 200 (.ok successBody)

/-- Concrete script: immediate success with a txHash, for `waitForOp`. -/
def cwfoSuccessHash : Nat → WfoFetch := fun _ => .response 200 (.ok successBody)

/-- Concrete script: immediate success without a txHash, for `waitForOp`. -/
def cwfoSuccessNoHash : Nat → WfoFetch :=
  fun _ => .response 200 (.ok successNoHash)

/-- Concrete script: every response is a 404, for `waitForOp`. -/
def cwfo404 : Nat → WfoFetch := fun _ => .response 404 (.ok queuedBody)

/-- Concrete script: every poll queued, for `waitForOp`. -/
def cwfoAllQueued : Nat → WfoFetch := fun _ => .response 200 (.ok queuedBody)

/-- Concrete clock that never advances. -/
def czero : Nat → Nat := fun _ => 0

/-- The sleep durations of an optional `waitForOp` trace (`none`, a run
still looping, has produced no completed trace to inspect). -/
def wfoSleeps : Option WfoTrace → List Nat
  | none => []
  | some t => t.sleeps

/-- Whether every error produced by an optional `waitForOp` trace is the
normalized `VaultumError` shape. -/
def wfoNormalized : Option WfoTrace → Bool
  | none => true
  | some t => errNormalized t.result

end VaultumSdk

namespace VaultumSdk

example : isValidUUID sampleId = true := by decide
example : isValidUUID "" = false := by decide
example : isValidUUID "not-a-uuid" = false := by decide
example : isValidUUID "12345678-9abc-def0-1234-56789abcdefg" = false := by decide
example : isValidUUID (sampleId ++ "x") = false := by decide

/-- A valid id reaches the network: `getOpStatus` performs one request. -/
theorem getOpStatus_valid (id : String) (o : FetchOutcome)
    (h : isValidUUID id = true) : getOpStatus id o = (request o, 1) := by
  have hne : id ≠ "" := by
    intro he
    rw [he] at h
    exact absurd h (by decide)
  unfold getOpStatus
  simp [h, hne]

/-- A 2xx response makes `request` return the parsed body. -/
theorem request_ok (st : Nat) (body : JsonValue) (h : responseOk st = true) :
    request (.response st body) = .ok body := by
  unfold request
  simp [h]

/-- Run of the `waitForOperation` loop in which polls `i, …, i+k-1` are
2xx non-terminal and poll `i+k` is 2xx terminal: the loop returns the
payload of poll `i+k` after exactly `k+1` requests, the callback sees
every payload in order, and `k` sleeps of `interval` ms occur. -/
theorem wfopLoop_terminal (id : String) (net : Nat → FetchOutcome)
    (s : Nat → Nat) (b : Nat → JsonValue) (interval : Nat) (hasCb : Bool)
    (hv : isValidUUID id = true) :
    ∀ (k i fuel : Nat),
      (∀ j, j ≤ k → net (i + j) = .response (s (i + j)) (b (i + j))) →
      (∀ j, j ≤ k → responseOk (s (i + j)) = true) →
      (∀ j, j < k → isTerminal (b (i + j)) = false) →
      isTerminal (b (i + k)) = true →
      k < fuel →
      waitForOperationLoop id net interval hasCb i fuel =
        ⟨.ok (b (i + k)), k + 1,
          if hasCb then (List.range (k + 1)).map (fun j => b (i + j)) else [],
          List.replicate k interval⟩ := by
  intro k
  induction k with
  | zero =>
      intro i fuel hnet hok hnt hterm hfuel
      obtain ⟨fuel', rfl⟩ : ∃ f, fuel = f + 1 := ⟨fuel - 1, by omega⟩
      have h0 := hnet 0 (Nat.le_refl 0)
      have h0ok := hok 0 (Nat.le_refl 0)
      rw [Nat.add_zero] at h0 h0ok hterm ⊢
      rw [waitForOperationLoop, getOpStatus_valid id _ hv, h0,
        request_ok _ _ h0ok]
      simp [hterm, List.range_succ, List.range_zero]
  | succ k ih =>
      intro i fuel hnet hok hnt hterm hfuel
      obtain ⟨fuel', rfl⟩ : ∃ f, fuel = f + 1 := ⟨fuel - 1, by omega⟩
      have h0 := hnet 0 (Nat.zero_le _)
      have h0ok := hok 0 (Nat.zero_le _)
      have h0nt := hnt 0 (Nat.succ_pos k)
      rw [Nat.add_zero] at h0 h0ok h0nt
      have hrest := ih (i + 1) fuel'
        (fun j hj => by
          have := hnet (j + 1) (Nat.succ_le_succ hj)
          rwa [show i + (j + 1) = i + 1 + j by omega] at this)
        (fun j hj => by
          have := hok (j + 1) (Nat.succ_le_succ hj)
          rwa [show i + (j + 1) = i + 1 + j by omega] at this)
        (fun j hj => by
          have := hnt (j + 1) (Nat.succ_lt_succ hj)
          rwa [show i + (j + 1) = i + 1 + j by omega] at this)
        (by rwa [show i + 1 + k = i + (k + 1) by omega])
        (by omega)
      rw [waitForOperationLoop, getOpStatus_valid id _ hv, h0,
        request_ok _ _ h0ok]
      simp only [h0nt, if_neg, hrest]
      have hmap : (List.range (k + 1 + 1)).map (fun j => b (i + j)) =
          b i :: (List.range (k + 1)).map (fun j => b (i + 1 + j)) := by
        rw [List.range_succ_eq_map, List.map_cons, List.map_map, Nat.add_zero]
        refine congrArg (List.cons (b i)) ?_
        apply List.map_congr_left
        intro j _
        show b (i + (j + 1)) = b (i + 1 + j)
        congr 1
        omega
      cases hasCb <;>
        simp [hmap, List.replicate_succ, show i + 1 + k = i + (k + 1) by omega,
          show (1 : Nat) + (k + 1) = k + 1 + 1 by omega]

/-- Run of the `waitForOp` loop in which polls `i, …, i+k-1` are non-404
non-terminal within the time bound and poll `i+k` is non-404 terminal:
the loop returns the payload of poll `i+k` after exactly `k+1` fetches,
`onTick` sees only each payload's `state` field in order, and `k` sleeps
of `interval` ms occur. -/
theorem wfoLoop_terminal (net : Nat → WfoFetch) (elapsed : Nat → Nat)
    (s : Nat → Nat) (b : Nat → JsonValue) (interval timeout : Nat)
    (hasTick : Bool) :
    ∀ (k i fuel : Nat),
      (∀ j, j ≤ k → net (i + j) = .response (s (i + j)) (.ok (b (i + j)))) →
      (∀ j, j ≤ k → s (i + j) ≠ 404) →
      (∀ j, j < k → isTerminal (b (i + j)) = false) →
      (∀ j, j < k → elapsed (i + j) ≤ timeout) →
      isTerminal (b (i + k)) = true →
      k < fuel →
      waitForOpLoop net elapsed interval timeout hasTick i fuel =
        some ⟨.ok (b (i + k)), k + 1,
          if hasTick then (List.range (k + 1)).map (fun j => (b (i + j)).state)
          else [],
          List.replicate k interval⟩ := by
  intro k
  induction k with
  | zero =>
      intro i fuel hnet h404 hnt htime hterm hfuel
      obtain ⟨fuel', rfl⟩ : ∃ f, fuel = f + 1 := ⟨fuel - 1, by omega⟩
      have h0 := hnet 0 (Nat.le_refl 0)
      have h04 := h404 0 (Nat.le_refl 0)
      rw [Nat.add_zero] at h0 h04 hterm ⊢
      rw [waitForOpLoop, h0]
      cases hasTick <;>
        simp [h04, hterm, List.range_succ, List.range_zero]
  | succ k ih =>
      intro i fuel hnet h404 hnt htime hterm hfuel
      obtain ⟨fuel', rfl⟩ : ∃ f, fuel = f + 1 := ⟨fuel - 1, by omega⟩
      have h0 := hnet 0 (Nat.zero_le _)
      have h04 := h404 0 (Nat.zero_le _)
      have h0nt := hnt 0 (Nat.succ_pos k)
      have h0t := htime 0 (Nat.succ_pos k)
      rw [Nat.add_zero] at h0 h04 h0nt h0t
      have hrest := ih (i + 1) fuel'
        (fun j hj => by
          have := hnet (j + 1) (Nat.succ_le_succ hj)
          rwa [show i + (j + 1) = i + 1 + j by omega] at this)
        (fun j hj => by
          have := h404 (j + 1) (Nat.succ_le_succ hj)
          rwa [show i + (j + 1) = i + 1 + j by omega] at this)
        (fun j hj => by
          have := hnt (j + 1) (Nat.succ_lt_succ hj)
          rwa [show i + (j + 1) = i + 1 + j by omega] at this)
        (fun j hj => by
          have := htime (j + 1) (Nat.succ_lt_succ hj)
          rwa [show i + (j + 1) = i + 1 + j by omega] at this)
        (by rwa [show i + 1 + k = i + (k + 1) by omega])
        (by omega)
      rw [waitForOpLoop, h0]
      have hmap : (List.range (k + 1 + 1)).map (fun j => (b (i + j)).state) =
          (b i).state ::
            (List.range (k + 1)).map (fun j => (b (i + 1 + j)).state) := by
        rw [List.range_succ_eq_map, List.map_cons, List.map_map, Nat.add_zero]
        refine congrArg (List.cons (b i).state) ?_
        apply List.map_congr_left
        intro j _
        show (b (i + (j + 1))).state = (b (i + 1 + j)).state
        congr 2
        omega
      have hnle : ¬ (timeout < elapsed i) := by omega
      cases hasTick <;>
        simp [h04, h0nt, hnle, hrest, hmap, List.replicate_succ,
          show i + 1 + k = i + (k + 1) by omega,
          show (1 : Nat) + (k + 1) = k + 1 + 1 by omega]

/-- Run of the `waitForOperation` loop in which every poll is 2xx and
non-terminal: the loop exhausts its fuel, making exactly `fuel` requests
and `fuel` sleeps, and throws the attempt-cap timeout `VaultumError`. -/
theorem wfopLoop_pending (id : String) (net : Nat → FetchOutcome)
    (s : Nat → Nat) (b : Nat → JsonValue) (interval : Nat) (hasCb : Bool)
    (hv : isValidUUID id = true)
    (hnet : ∀ j, net j = .response (s j) (b j))
    (hok : ∀ j, responseOk (s j) = true)
    (hnt : ∀ j, isTerminal (b j) = false) :
    ∀ (fuel i : Nat),
      waitForOperationLoop id net interval hasCb i fuel =
        ⟨.error (.vaultum "Operation timeout: max attempts reached" none none),
          fuel,
          if hasCb then (List.range fuel).map (fun j => b (i + j)) else [],
          List.replicate fuel interval⟩ := by
  intro fuel
  induction fuel with
  | zero =>
      intro i
      rw [waitForOperationLoop]
      cases hasCb <;> simp
  | succ fuel ih =>
      intro i
      rw [waitForOperationLoop, getOpStatus_valid id _ hv, hnet i,
        request_ok _ _ (hok i)]
      have hrest := ih (i + 1)
      have hmap : (List.range (fuel + 1)).map (fun j => b (i + j)) =
          b i :: (List.range fuel).map (fun j => b (i + 1 + j)) := by
        rw [List.range_succ_eq_map, List.map_cons, List.map_map, Nat.add_zero]
        refine congrArg (List.cons (b i)) ?_
        apply List.map_congr_left
        intro j _
        show b (i + (j + 1)) = b (i + 1 + j)
        congr 1
        omega
      cases hasCb <;>
        simp [hnt i, hrest, hmap, List.replicate_succ,
          show (1 : Nat) + fuel = fuel + 1 by omega]

/-- Run of the `waitForOp` loop in which polls `i, …, i+k-1` are non-404
non-terminal within the time bound and poll `i+k` is non-404 non-terminal
with the elapsed time strictly over `timeout`: the loop throws the bare
wall-clock timeout `Error` after exactly `k+1` fetches; `onTick` fires
for every poll, the over-time one included. -/
theorem wfoLoop_timeout (net : Nat → WfoFetch) (elapsed : Nat → Nat)
    (s : Nat → Nat) (b : Nat → JsonValue) (interval timeout : Nat)
    (hasTick : Bool) :
    ∀ (k i fuel : Nat),
      (∀ j, j ≤ k → net (i + j) = .response (s (i + j)) (.ok (b (i + j)))) →
      (∀ j, j ≤ k → s (i + j) ≠ 404) →
      (∀ j, j ≤ k → isTerminal (b (i + j)) = false) →
      (∀ j, j < k → elapsed (i + j) ≤ timeout) →
      timeout < elapsed (i + k) →
      k < fuel →
      waitForOpLoop net elapsed interval timeout hasTick i fuel =
        some ⟨.error (.plain "Timeout waiting for operation"), k + 1,
          if hasTick then (List.range (k + 1)).map (fun j => (b (i + j)).state)
          else [],
          List.replicate k interval⟩ := by
  intro k
  induction k with
  | zero =>
      intro i fuel hnet h404 hnt htime hover hfuel
      obtain ⟨fuel', rfl⟩ : ∃ f, fuel = f + 1 := ⟨fuel - 1, by omega⟩
      have h0 := hnet 0 (Nat.le_refl 0)
      have h04 := h404 0 (Nat.le_refl 0)
      have h0nt := hnt 0 (Nat.le_refl 0)
      rw [Nat.add_zero] at h0 h04 h0nt hover ⊢
      rw [waitForOpLoop, h0]
      cases hasTick <;>
        simp [h04, h0nt, hover, List.range_succ, List.range_zero]
  | succ k ih =>
      intro i fuel hnet h404 hnt htime hover hfuel
      obtain ⟨fuel', rfl⟩ : ∃ f, fuel = f + 1 := ⟨fuel - 1, by omega⟩
      have h0 := hnet 0 (Nat.zero_le _)
      have h04 := h404 0 (Nat.zero_le _)
      have h0nt := hnt 0 (Nat.zero_le _)
      have h0t := htime 0 (Nat.succ_pos k)
      rw [Nat.add_zero] at h0 h04 h0nt h0t
      have hrest := ih (i + 1) fuel'
        (fun j hj => by
          have := hnet (j + 1) (Nat.succ_le_succ hj)
          rwa [show i + (j + 1) = i + 1 + j by omega] at this)
        (fun j hj => by
          have := h404 (j + 1) (Nat.succ_le_succ hj)
          rwa [show i + (j + 1) = i + 1 + j by omega] at this)
        (fun j hj => by
          have := hnt (j + 1) (Nat.succ_le_succ hj)
          rwa [show i + (j + 1) = i + 1 + j by omega] at this)
        (fun j hj => by
          have := htime (j + 1) (Nat.succ_lt_succ hj)
          rwa [show i + (j + 1) = i + 1 + j by omega] at this)
        (by rwa [show i + 1 + k = i + (k + 1) by omega])
        (by omega)
      rw [waitForOpLoop, h0]
      have hmap : (List.range (k + 1 + 1)).map (fun j => (b (i + j)).state) =
          (b i).state ::
            (List.range (k + 1)).map (fun j => (b (i + 1 + j)).state) := by
        rw [List.range_succ_eq_map, List.map_cons, List.map_map, Nat.add_zero]
        refine congrArg (List.cons (b i).state) ?_
        apply List.map_congr_left
        intro j _
        show (b (i + (j + 1))).state = (b (i + 1 + j)).state
        congr 2
        omega
      have hnle : ¬ (timeout < elapsed i) := by omega
      cases hasTick <;>
        simp [h04, h0nt, hnle, hrest, hmap, List.replicate_succ,
          show i + 1 + k = i + (k + 1) by omega,
          show (1 : Nat) + (k + 1) = k + 1 + 1 by omega]

/-- Run of the `waitForOp` loop in which polls `i, …, i+k-1` are non-404
non-terminal within the time bound and poll `i+k` has HTTP status 404:
the loop throws the bare `Error('Operation not found')` after exactly
`k+1` fetches; the body of the 404 response is never read and no tick
fires for it. -/
theorem wfoLoop_notFound (net : Nat → WfoFetch) (elapsed : Nat → Nat)
    (s : Nat → Nat) (b : Nat → JsonValue)
    (js : Except ThrownError JsonValue) (interval timeout : Nat)
    (hasTick : Bool) :
    ∀ (k i fuel : Nat),
      (∀ j, j < k → net (i + j) = .response (s (i + j)) (.ok (b (i + j)))) →
      (∀ j, j < k → s (i + j) ≠ 404) →
      (∀ j, j < k → isTerminal (b (i + j)) = false) →
      (∀ j, j < k → elapsed (i + j) ≤ timeout) →
      net (i + k) = .response 404 js →
      k < fuel →
      waitForOpLoop net elapsed interval timeout hasTick i fuel =
        some ⟨.error (.plain "Operation not found"), k + 1,
          if hasTick then (List.range k).map (fun j => (b (i + j)).state)
          else [],
          List.replicate k interval⟩ := by
  intro k
  induction k with
  | zero =>
      intro i fuel hnet h404 hnt htime hk hfuel
      obtain ⟨fuel', rfl⟩ : ∃ f, fuel = f + 1 := ⟨fuel - 1, by omega⟩
      rw [Nat.add_zero] at hk
      rw [waitForOpLoop, hk]
      cases hasTick <;> simp
  | succ k ih =>
      intro i fuel hnet h404 hnt htime hk hfuel
      obtain ⟨fuel', rfl⟩ : ∃ f, fuel = f + 1 := ⟨fuel - 1, by omega⟩
      have h0 := hnet 0 (Nat.succ_pos k)
      have h04 := h404 0 (Nat.succ_pos k)
      have h0nt := hnt 0 (Nat.succ_pos k)
      have h0t := htime 0 (Nat.succ_pos k)
      rw [Nat.add_zero] at h0 h04 h0nt h0t
      have hrest := ih (i + 1) fuel'
        (fun j hj => by
          have := hnet (j + 1) (Nat.succ_lt_succ hj)
          rwa [show i + (j + 1) = i + 1 + j by omega] at this)
        (fun j hj => by
          have := h404 (j + 1) (Nat.succ_lt_succ hj)
          rwa [show i + (j + 1) = i + 1 + j by omega] at this)
        (fun j hj => by
          have := hnt (j + 1) (Nat.succ_lt_succ hj)
          rwa [show i + (j + 1) = i + 1 + j by omega] at this)
        (fun j hj => by
          have := htime (j + 1) (Nat.succ_lt_succ hj)
          rwa [show i + (j + 1) = i + 1 + j by omega] at this)
        (by rwa [show i + 1 + k = i + (k + 1) by omega])
        (by omega)
      rw [waitForOpLoop, h0]
      have hmap : (List.range (k + 1)).map (fun j => (b (i + j)).state) =
          (b i).state ::
            (List.range k).map (fun j => (b (i + 1 + j)).state) := by
        rw [List.range_succ_eq_map, List.map_cons, List.map_map, Nat.add_zero]
        refine congrArg (List.cons (b i).state) ?_
        apply List.map_congr_left
        intro j _
        show (b (i + (j + 1))).state = (b (i + 1 + j)).state
        congr 2
        omega
      have hnle : ¬ (timeout < elapsed i) := by omega
      cases hasTick <;>
        simp [h04, h0nt, hnle, hrest, hmap, List.replicate_succ,
          show (1 : Nat) + (k + 1) = k + 1 + 1 by omega]

/-- Every failure of `request` is a normalized `VaultumError`. -/
theorem request_normalized (o : FetchOutcome) :
    errNormalized (request o) = true := by
  unfold request
  split
  · split
    · rfl
    · split <;> rfl
  · split <;> rfl

/-- Every failure of `getOpStatus` is a normalized `VaultumError`. -/
theorem getOpStatus_normalized (id : String) (o : FetchOutcome) :
    errNormalized (getOpStatus id o).1 = true := by
  unfold getOpStatus
  split
  · rfl
  · exact request_normalized o

/-- Every failure of the `waitForOperation` loop is a normalized
`VaultumError`. -/
theorem wfopLoop_normalized (id : String) (net : Nat → FetchOutcome)
    (interval : Nat) (hasCb : Bool) :
    ∀ (fuel i : Nat),
      errNormalized (waitForOperationLoop id net interval hasCb i fuel).result
        = true := by
  intro fuel
  induction fuel with
  | zero => intro i; rfl
  | succ fuel ih =>
      intro i
      rw [waitForOperationLoop]
      rcases hg : getOpStatus id (net i) with ⟨res, n⟩
      have hnorm := getOpStatus_normalized id (net i)
      rw [hg] at hnorm
      rcases res with e | st
      · simpa using hnorm
      · by_cases ht : isTerminal st = true
        · simp [ht, errNormalized]
        · simp only [ht, Bool.false_eq_true, if_false, if_neg]
          exact ih (i + 1)

/-- Every sleep of the `waitForOperation` loop lasts exactly the
effective polling interval. -/
theorem wfopLoop_sleeps (id : String) (net : Nat → FetchOutcome)
    (interval : Nat) (hasCb : Bool) :
    ∀ (fuel i : Nat),
      ((waitForOperationLoop id net interval hasCb i fuel).sleeps).all
        (fun d => d == interval) = true := by
  intro fuel
  induction fuel with
  | zero => intro i; rfl
  | succ fuel ih =>
      intro i
      rw [waitForOperationLoop]
      rcases hg : getOpStatus id (net i) with ⟨res, n⟩
      rcases res with e | st
      · rfl
      · by_cases ht : isTerminal st = true
        · simp [ht]
        · simp only [ht, Bool.false_eq_true, if_false, if_neg]
          simp [List.all_cons, ih (i + 1)]

/-- Every sleep of the `waitForOp` loop lasts exactly the effective
polling interval. -/
theorem wfoLoop_sleeps (net : Nat → WfoFetch) (elapsed : Nat → Nat)
    (interval timeout : Nat) (hasTick : Bool) :
    ∀ (fuel i : Nat),
      (wfoSleeps
        (waitForOpLoop net elapsed interval timeout hasTick i fuel)).all
          (fun d => d == interval) = true := by
  intro fuel
  induction fuel with
  | zero => intro i; rfl
  | succ fuel ih =>
      intro i
      rw [waitForOpLoop]
      rcases hnet : net i with ⟨status, json⟩ | e
      · by_cases h4 : status = 404
        · simp [h4, wfoSleeps]
        · rcases json with e | j
          · simp [h4, wfoSleeps]
          · by_cases ht : isTerminal j = true
            · simp [h4, ht, wfoSleeps]
            · by_cases he : timeout < elapsed i
              · simp [h4, ht, he, wfoSleeps]
              · have hihc := ih (i + 1)
                rcases hr : waitForOpLoop net elapsed interval timeout
                    hasTick (i + 1) fuel with _ | t
                · simp [h4, ht, he, hr, wfoSleeps]
                · rw [hr] at hihc
                  simp only [wfoSleeps] at hihc
                  simp [h4, ht, he, hr, wfoSleeps, List.all_cons, hihc]
      · simp [wfoSleeps]

/-- The JavaScript falsy default of a positive default is positive. -/
theorem jsOrNat_pos (x : Option Nat) (d : Nat) (hd : 0 < d) :
    0 < jsOrNat x d := by
  unfold jsOrNat
  cases x with
  | none => exact hd
  | some v => by_cases hv : v = 0 <;> simp [hv] <;> omega

/-- C2: with an attempt cap `n ≥ 1` configured on `waitForOperation`, if
every poll returns a 2xx non-terminal status and no poll errors, the
poller fails with the attempt-cap timeout `VaultumError` after
performing exactly `n` status fetches — no fewer, no more. -/
theorem C2_attempt_cap_exact (id : String) (net : Nat → FetchOutcome)
    (s : Nat → Nat) (b : Nat → JsonValue) (pollIv : Option Nat) (n : Nat)
    (hasCb : Bool)
    (hv : isValidUUID id = true) (hn : 1 ≤ n)
    (hnet : ∀ j, net j = .response (s j) (b j))
    (hok : ∀ j, responseOk (s j) = true)
    (hnt : ∀ j, isTerminal (b j) = false) :
    (waitForOperation id net pollIv (some n) hasCb).result =
      .error (.vaultum "Operation timeout: max attempts reached" none none) ∧
    (waitForOperation id net pollIv (some n) hasCb).fetches = n := by
  have hn0 : n ≠ 0 := by omega
  have hjs : jsOrNat (some n) 60 = n := by
    unfold jsOrNat
    simp [hn0]
  unfold waitForOperation
  rw [hjs, wfopLoop_pending id net s b _ hasCb hv hnet hok hnt n 0]
  exact ⟨rfl, rfl⟩

/-- C2 witness: cap 2, every poll queued: timeout error after exactly
2 fetches. -/
theorem C2_attempt_cap_exact_witness :
    isValidUUID sampleId = true ∧ 1 ≤ 2 ∧
    (waitForOperation sampleId cnetAllQueued none (some 2) false).result =
      .error (.vaultum "Operation timeout: max attempts reached" none none) ∧
    (waitForOperation sampleId cnetAllQueued none (some 2) false).fetches
      = 2 := by
  refine ⟨by decide, by decide, ?_, ?_⟩
  · exact (C2_attempt_cap_exact sampleId cnetAllQueued (fun _ => 200)
      (fun _ => queuedBody) none 2 false (by decide) (by decide)
      (fun _ => rfl) (fun _ => rfl) (fun _ => rfl)).1
  · exact (C2_attempt_cap_exact sampleId cnetAllQueued (fun _ => 200)
      (fun _ => queuedBody) none 2 false (by decide) (by decide)
      (fun _ => rfl) (fun _ => rfl) (fun _ => rfl)).2

/-- C10: calling `waitForOperation` with maxAttempts 0 does not fail
immediately with zero polls: 0 is falsy, so the run is identical to the
run with maxAttempts unset (default cap 60), and with a valid id and
pending polls it performs the default 60 fetches. -/
theorem C10_zero_max_attempts (id : String) (net : Nat → FetchOutcome)
    (pollIv : Option Nat) (hasCb : Bool)
    (s : Nat → Nat) (b : Nat → JsonValue)
    (hv : isValidUUID id = true)
    (hnet : ∀ j, net j = .response (s j) (b j))
    (hok : ∀ j, responseOk (s j) = true)
    (hnt : ∀ j, isTerminal (b j) = false) :
    waitForOperation id net pollIv (some 0) hasCb =
      waitForOperation id net pollIv none hasCb ∧
    (waitForOperation id net pollIv (some 0) hasCb).fetches = 60 := by
  constructor
  · rfl
  · unfold waitForOperation
    rw [show jsOrNat (some 0) 60 = 60 from rfl,
      wfopLoop_pending id net s b _ hasCb hv hnet hok hnt 60 0]

/-- C10 witness: maxAttempts 0 with every poll queued behaves as the
default cap of 60 fetches. -/
theorem C10_zero_max_attempts_witness :
    isValidUUID sampleId = true ∧
    waitForOperation sampleId cnetAllQueued none (some 0) false =
      waitForOperation sampleId cnetAllQueued none none false ∧
    (waitForOperation sampleId cnetAllQueued none (some 0) false).fetches
      = 60 := by
  refine ⟨by decide, ?_, ?_⟩
  · exact (C10_zero_max_attempts sampleId cnetAllQueued none false
      (fun _ => 200) (fun _ => queuedBody) (by decide) (fun _ => rfl)
      (fun _ => rfl) (fun _ => rfl)).1
  · exact (C10_zero_max_attempts sampleId cnetAllQueued none false
      (fun _ => 200) (fun _ => queuedBody) (by decide) (fun _ => rfl)
      (fun _ => rfl) (fun _ => rfl)).2

/-- C4: an identifier that does not match the canonical 8-4-4-4-12
hexadecimal grouped UUID form makes `getOpStatus` fail with the
`Invalid operation ID format` error and perform zero network requests,
whatever the network would have answered. -/
theorem C4_invalid_id_no_request (id : String) (o : FetchOutcome)
    (h : isValidUUID id = false) :
    getOpStatus id o =
      (.error (.vaultum "Invalid operation ID format" none none), 0) := by
  unfold getOpStatus
  simp [h]

/-- C4 witness: the spec's four malformed examples all fail fast with
no request. -/
theorem C4_invalid_id_no_request_witness :
    isValidUUID "not-a-uuid" = false ∧
    getOpStatus "" (.response 200 successBody) =
      (.error (.vaultum "Invalid operation ID format" none none), 0) ∧
    getOpStatus "not-a-uuid" (.response 200 successBody) =
      (.error (.vaultum "Invalid operation ID format" none none), 0) ∧
    getOpStatus "12345678-9abc-def0-1234-56789abcdefg"
        (.response 200 successBody) =
      (.error (.vaultum "Invalid operation ID format" none none), 0) ∧
    getOpStatus (sampleId ++ "x") (.response 200 successBody) =
      (.error (.vaultum "Invalid operation ID format" none none), 0) :=
  ⟨by decide,
    C4_invalid_id_no_request "" _ (by decide),
    C4_invalid_id_no_request "not-a-uuid" _ (by decide),
    C4_invalid_id_no_request "12345678-9abc-def0-1234-56789abcdefg" _
      (by decide),
    C4_invalid_id_no_request (sampleId ++ "x") _ (by decide)⟩

/-- C8: a 422 response whose JSON body carries an errors map but no
message field yields a `VaultumError` whose message is exactly the fixed
string `Validation failed`, whose statusCode is 422, and whose errors
field is the body's errors map unchanged. -/
theorem C8_validation_default (body : JsonValue)
    (m : List (String × List String))
    (hmsg : body.message = none) (herr : body.errors = some m) :
    request (.response 422 body) =
      .error (.vaultum "Validation failed" (some 422) (some m)) := by
  simp [request, responseOk, jsOrString, hmsg, herr]

/-- C8 witness: a concrete 422 body with only an errors map. -/
theorem C8_validation_default_witness :
    validationBody.message = none ∧
    validationBody.errors = some [("amount", ["required"])] ∧
    request (.response 422 validationBody) =
      .error (.vaultum "Validation failed" (some 422)
        (some [("amount", ["required"])])) :=
  ⟨rfl, rfl, C8_validation_default validationBody _ rfl rfl⟩

/-- C5: when the first poll already returns a terminal state, each
poller (`waitForOperation` and `waitForOp`) makes exactly one network
call, resolves with that payload, and never sleeps. -/
theorem C5_first_poll_terminal (id : String) (net : Nat → FetchOutcome)
    (st : Nat) (body : JsonValue) (pollIv ma : Option Nat) (hasCb : Bool)
    (net2 : Nat → WfoFetch) (elapsed : Nat → Nat) (st2 : Nat)
    (body2 : JsonValue) (im tm : Option Nat) (hasTick : Bool) (fuel : Nat)
    (hv : isValidUUID id = true)
    (h0 : net 0 = .response st body)
    (hok : responseOk st = true)
    (hterm : isTerminal body = true)
    (h02 : net2 0 = .response st2 (.ok body2))
    (h404 : st2 ≠ 404)
    (hterm2 : isTerminal body2 = true)
    (hfuel : 0 < fuel) :
    (waitForOperation id net pollIv ma hasCb).result = .ok body ∧
    (waitForOperation id net pollIv ma hasCb).fetches = 1 ∧
    (waitForOperation id net pollIv ma hasCb).sleeps = [] ∧
    ∃ t, waitForOp net2 elapsed im tm hasTick fuel = some t ∧
      t.result = .ok body2 ∧ t.fetches = 1 ∧ t.sleeps = [] := by
  have hop := wfopLoop_terminal id net (fun _ => st) (fun _ => body)
    (jsOrNat pollIv 2000) hasCb hv 0 0 (jsOrNat ma 60)
    (fun j hj => by
      have hj0 : j = 0 := Nat.le_zero.mp hj
      subst hj0
      simpa using h0)
    (fun j hj => hok)
    (fun j hj => absurd hj (Nat.not_lt_zero j))
    (by simpa using hterm)
    (jsOrNat_pos ma 60 (by omega))
  have hwfo := wfoLoop_terminal net2 elapsed (fun _ => st2) (fun _ => body2)
    (im.getD 1500) (tm.getD 120000) hasTick 0 0 fuel
    (fun j hj => by
      have hj0 : j = 0 := Nat.le_zero.mp hj
      subst hj0
      simpa using h02)
    (fun j hj => h404)
    (fun j hj => absurd hj (Nat.not_lt_zero j))
    (fun j hj => absurd hj (Nat.not_lt_zero j))
    (by simpa using hterm2)
    hfuel
  unfold waitForOperation waitForOp
  rw [hop]
  exact ⟨rfl, rfl, rfl, _, hwfo, rfl, rfl, rfl⟩

/-- C5 witness: immediate-success scripts for both pollers. -/
theorem C5_first_poll_terminal_witness :
    isValidUUID sampleId = true ∧
    isTerminal successBody = true ∧
    (waitForOperation sampleId cnetSuccess none none false).result =
      .ok successBody ∧
    (waitForOperation sampleId cnetSuccess none none false).fetches = 1 ∧
    (waitForOperation sampleId cnetSuccess none none false).sleeps = [] ∧
    ∃ t, waitForOp cwfoSuccessHash czero none none false 1 = some t ∧
      t.result = .ok successBody ∧ t.fetches = 1 ∧ t.sleeps = [] := by
  refine ⟨by decide, by decide, ?_⟩
  exact C5_first_poll_terminal sampleId cnetSuccess 200 successBody none
    none false cwfoSuccessHash czero 200 successBody none none false 1
    (by decide) rfl (by decide) (by decide) rfl (by decide) (by decide)
    (by decide)

/-- C7 fails as stated: a 404 poll makes `waitForOp` throw the bare
`Error('Operation not found')` — a plain error, not the normalized
`VaultumError`. -/
theorem C7_counterexample :
    waitForOp cwfo404 czero none none false 1 =
      some ⟨.error (.plain "Operation not found"), 1, [], []⟩ ∧
    (ThrownError.plain "Operation not found").isVaultum = false := by
  decide

/-- C7 amended: every failure raised by the VaultumClient operations
(`request`, `getOpStatus`, `waitForOperation`) surfaces as the single
normalized `VaultumError`; the standalone `waitForOp` instead throws
bare `Error` values for not-found and wall-clock timeout and propagates
transport failures unnormalized (see the counterexample). -/
theorem C7_amended :
    (∀ o, errNormalized (request o) = true) ∧
    (∀ id o, errNormalized (getOpStatus id o).1 = true) ∧
    (∀ (id : String) (net : Nat → FetchOutcome) (pollIv ma : Option Nat)
        (hasCb : Bool),
      errNormalized (waitForOperation id net pollIv ma hasCb).result
        = true) :=
  ⟨request_normalized, getOpStatus_normalized,
    fun id net pollIv ma hasCb =>
      wfopLoop_normalized id net (jsOrNat pollIv 2000) hasCb
        (jsOrNat ma 60) 0⟩

/-- C1 fails as stated: two `waitForOp` runs whose returned payloads
differ in `txHash` produce identical callback invocations, because
`onTick` receives only the `state` string, never the full payload. -/
theorem C1_counterexample :
    waitForOp cwfoSuccessHash czero none none true 1 =
      some ⟨.ok successBody, 1, [some "success"], []⟩ ∧
    waitForOp cwfoSuccessNoHash czero none none true 1 =
      some ⟨.ok successNoHash, 1, [some "success"], []⟩ ∧
    successBody.txHash ≠ successNoHash.txHash := by
  decide

/-- C1 amended: when poll `k` is the first terminal poll,
`waitForOperation` resolves with poll `k`'s payload and `onStatusChange`
fires once per poll, in poll order, with the full payload of that poll
(txHash included), each invocation ordered before the terminal check
(the terminal poll's invocation included); `waitForOp` also resolves
with its first terminal payload and fires `onTick` once per poll in
order, but each invocation receives only the `state` field of that
poll's payload. -/
theorem C1_amended (id : String) (net : Nat → FetchOutcome)
    (s : Nat → Nat) (b : Nat → JsonValue) (pollIv ma : Option Nat)
    (k : Nat) (net2 : Nat → WfoFetch) (elapsed : Nat → Nat)
    (s2 : Nat → Nat) (b2 : Nat → JsonValue) (im tm : Option Nat)
    (k2 fuel : Nat)
    (hv : isValidUUID id = true)
    (hnet : ∀ j, j ≤ k → net j = .response (s j) (b j))
    (hok : ∀ j, j ≤ k → responseOk (s j) = true)
    (hnt : ∀ j, j < k → isTerminal (b j) = false)
    (hterm : isTerminal (b k) = true)
    (hk : k < jsOrNat ma 60)
    (hnet2 : ∀ j, j ≤ k2 → net2 j = .response (s2 j) (.ok (b2 j)))
    (h404 : ∀ j, j ≤ k2 → s2 j ≠ 404)
    (hnt2 : ∀ j, j < k2 → isTerminal (b2 j) = false)
    (htime : ∀ j, j < k2 → elapsed j ≤ tm.getD 120000)
    (hterm2 : isTerminal (b2 k2) = true)
    (hfuel : k2 < fuel) :
    waitForOperation id net pollIv ma true =
      ⟨.ok (b k), k + 1, (List.range (k + 1)).map b,
        List.replicate k (jsOrNat pollIv 2000)⟩ ∧
    waitForOp net2 elapsed im tm true fuel =
      some ⟨.ok (b2 k2), k2 + 1,
        (List.range (k2 + 1)).map (fun j => (b2 j).state),
        List.replicate k2 (im.getD 1500)⟩ := by
  constructor
  · unfold waitForOperation
    have h := wfopLoop_terminal id net s b (jsOrNat pollIv 2000) true hv
      k 0 (jsOrNat ma 60)
      (fun j hj => by simpa using hnet j hj)
      (fun j hj => by simpa using hok j hj)
      (fun j hj => by simpa using hnt j hj)
      (by simpa using hterm) hk
    rw [h]
    simp
  · unfold waitForOp
    have h := wfoLoop_terminal net2 elapsed s2 b2 (im.getD 1500)
      (tm.getD 120000) true k2 0 fuel
      (fun j hj => by simpa using hnet2 j hj)
      (fun j hj => by simpa using h404 j hj)
      (fun j hj => by simpa using hnt2 j hj)
      (fun j hj => by simpa using htime j hj)
      (by simpa using hterm2) hfuel
    rw [h]
    simp

/-- C1 witness: queued-then-success scripts for both pollers; the
`onStatusChange` list holds full payloads, the `onTick` list only
states. -/
theorem C1_amended_witness :
    isValidUUID sampleId = true ∧
    isTerminal (cbody 1) = true ∧
    (waitForOperation sampleId cnetQueuedThenSuccess none none true =
      ⟨.ok (cbody 1), 2, (List.range 2).map cbody,
        List.replicate 1 2000⟩ ∧
    waitForOp cwfoQueuedThenSuccess czero none none true 2 =
      some ⟨.ok (cbody 1), 2, (List.range 2).map (fun j => (cbody j).state),
        List.replicate 1 1500⟩) := by
  refine ⟨by decide, by decide, ?_⟩
  exact C1_amended sampleId cnetQueuedThenSuccess (fun _ => 200) cbody
    none none 1 cwfoQueuedThenSuccess czero (fun _ => 200) cbody none
    none 1 2
    (by decide)
    (fun j hj => by interval_cases j <;> rfl)
    (fun j hj => rfl)
    (fun j hj => by interval_cases j <;> rfl)
    (by decide) (by decide)
    (fun j hj => by interval_cases j <;> rfl)
    (fun j hj => by simp)
    (fun j hj => by interval_cases j <;> rfl)
    (fun j hj => by interval_cases j <;> decide)
    (by decide) (by decide)

/-- C3 fails as stated: with timeoutMs 1000 and elapsed time exactly
1000 at the first, non-terminal poll's bound check, `waitForOp` does not
time out; it sleeps and polls again, resolving on the second poll. -/
theorem C3_counterexample :
    waitForOp cwfoQueuedThenSuccess (fun _ => 1000) (some 10) (some 1000)
        false 2 =
      some ⟨.ok successBody, 2, [], [10]⟩ := by
  decide

/-- C3 amended: the wall-clock bound of `waitForOp` is strict — a poll
that completes non-terminal fails with the Timeout error, with no
further polls, exactly when the elapsed time strictly exceeds the
configured timeoutMs; elapsed time equal to timeoutMs does not trigger
it. -/
theorem C3_amended (net2 : Nat → WfoFetch) (elapsed : Nat → Nat)
    (s2 : Nat → Nat) (b2 : Nat → JsonValue) (im tm : Option Nat)
    (hasTick : Bool) (k fuel : Nat)
    (hnet2 : ∀ j, j ≤ k → net2 j = .response (s2 j) (.ok (b2 j)))
    (h404 : ∀ j, j ≤ k → s2 j ≠ 404)
    (hnt2 : ∀ j, j ≤ k → isTerminal (b2 j) = false)
    (htime : ∀ j, j < k → elapsed j ≤ tm.getD 120000)
    (hover : tm.getD 120000 < elapsed k)
    (hfuel : k < fuel) :
    waitForOp net2 elapsed im tm hasTick fuel =
      some ⟨.error (.plain "Timeout waiting for operation"), k + 1,
        if hasTick then (List.range (k + 1)).map (fun j => (b2 j).state)
        else [],
        List.replicate k (im.getD 1500)⟩ := by
  unfold waitForOp
  have h := wfoLoop_timeout net2 elapsed s2 b2 (im.getD 1500)
    (tm.getD 120000) hasTick k 0 fuel
    (fun j hj => by simpa using hnet2 j hj)
    (fun j hj => by simpa using h404 j hj)
    (fun j hj => by simpa using hnt2 j hj)
    (fun j hj => by simpa using htime j hj)
    (by simpa using hover) hfuel
  rw [h]
  simp

/-- C3 witness: timeoutMs 5 and elapsed 6 at the first queued poll: one
fetch, then the Timeout error. -/
theorem C3_amended_witness :
    (Option.some 5 |>.getD 120000) < 6 ∧
    waitForOp cwfoAllQueued (fun _ => 6) (some 10) (some 5) false 1 =
      some ⟨.error (.plain "Timeout waiting for operation"), 1, [], []⟩ := by
  refine ⟨by decide, ?_⟩
  exact C3_amended cwfoAllQueued (fun _ => 6) (fun _ => 200)
    (fun _ => queuedBody) (some 10) (some 5) false 0 1
    (fun j hj => rfl)
    (fun j hj => by simp)
    (fun j hj => rfl)
    (fun j hj => absurd hj (Nat.not_lt_zero j))
    (by decide) (by decide)

/-- C9: when a poll's HTTP response has status 404, `waitForOp` fails
immediately with the distinct 'Operation not found' error — the body is
not even parsed — after the polls so far plus that one, with no further
polls. -/
theorem C9_not_found (net2 : Nat → WfoFetch) (elapsed : Nat → Nat)
    (s2 : Nat → Nat) (b2 : Nat → JsonValue)
    (js : Except ThrownError JsonValue) (im tm : Option Nat)
    (hasTick : Bool) (k fuel : Nat)
    (hnet2 : ∀ j, j < k → net2 j = .response (s2 j) (.ok (b2 j)))
    (h404 : ∀ j, j < k → s2 j ≠ 404)
    (hnt2 : ∀ j, j < k → isTerminal (b2 j) = false)
    (htime : ∀ j, j < k → elapsed j ≤ tm.getD 120000)
    (hk : net2 k = .response 404 js)
    (hfuel : k < fuel) :
    waitForOp net2 elapsed im tm hasTick fuel =
      some ⟨.error (.plain "Operation not found"), k + 1,
        if hasTick then (List.range k).map (fun j => (b2 j).state)
        else [],
        List.replicate k (im.getD 1500)⟩ := by
  unfold waitForOp
  have h := wfoLoop_notFound net2 elapsed s2 b2 js (im.getD 1500)
    (tm.getD 120000) hasTick k 0 fuel
    (fun j hj => by simpa using hnet2 j hj)
    (fun j hj => by simpa using h404 j hj)
    (fun j hj => by simpa using hnt2 j hj)
    (fun j hj => by simpa using htime j hj)
    (by simpa using hk) hfuel
  rw [h]
  simp

/-- C9 witness: an immediate 404 fails at once with 'Operation not
found' after a single fetch. -/
theorem C9_not_found_witness :
    cwfo404 0 = .response 404 (.ok queuedBody) ∧
    waitForOp cwfo404 czero none none false 1 =
      some ⟨.error (.plain "Operation not found"), 1, [], []⟩ := by
  refine ⟨rfl, ?_⟩
  exact C9_not_found cwfo404 czero (fun _ => 200) (fun _ => queuedBody)
    (.ok queuedBody) none none false 0 1
    (fun j hj => absurd hj (Nat.not_lt_zero j))
    (fun j hj => absurd hj (Nat.not_lt_zero j))
    (fun j hj => absurd hj (Nat.not_lt_zero j))
    (fun j hj => absurd hj (Nat.not_lt_zero j))
    rfl (by decide)

/-- C6 fails as stated: `waitForOperation` with pollingInterval 0
substitutes the default 2000 ms — the sleep between the two polls of
this run lasts 2000 ms, not 0. -/
theorem C6_counterexample :
    (waitForOperation sampleId cnetQueuedThenSuccess (some 0) (some 5)
      false).sleeps = [2000] ∧ (2000 : Nat) ≠ 0 := by
  decide

/-- C6 amended: `waitForOp` honors intervalMs 0 (every sleep of such a
run lasts 0 ms), but `waitForOperation` treats pollingInterval 0 as
falsy and substitutes the default interval: every sleep of such a run
lasts 2000 ms. -/
theorem C6_amended (id : String) (net : Nat → FetchOutcome)
    (ma : Option Nat) (hasCb : Bool) (net2 : Nat → WfoFetch)
    (elapsed : Nat → Nat) (tm : Option Nat) (hasTick : Bool)
    (fuel : Nat) :
    (waitForOperation id net (some 0) ma hasCb).sleeps.all
      (fun d => d == 2000) = true ∧
    (wfoSleeps (waitForOp net2 elapsed (some 0) tm hasTick fuel)).all
      (fun d => d == 0) = true := by
  constructor
  · exact wfopLoop_sleeps id net (jsOrNat (some 0) 2000) hasCb
      (jsOrNat ma 60) 0
  · exact wfoLoop_sleeps net2 elapsed ((some 0 : Option Nat).getD 1500)
      (tm.getD 120000) hasTick fuel 0

end VaultumSdk
